import Mathlib

/-!
Verification development for `memc_load.py`, a bulk loader that parses
tab-separated "device → installed apps" lines, routes them to per-device-type
queues, batches them in writer workers and flushes batches to memcache.

The Python source is embedded shallowly: strings stay strings, Python `int`
parsing is modelled over `Int`, `float` parsing keeps the exact decimal
decomposition of its argument (with infinities and NaN as explicit values,
since no claim involves float arithmetic), fallible code returns
`Except PyError`, and the stateful worker loop of `insert_apps_installed`
becomes a structural recursion over the list of queue items it dequeues,
instrumented with the batch events it performs.
-/

/-- Model of an exception escaping a Python function.
`attrError` stands for the `AttributeError` raised by calling the
misspelled `a.isidigit()`, `valError` for `ValueError` (tuple-unpacking a
list of more than 5 fields), `zeroDivError` for `ZeroDivisionError`. -/
inductive PyError where
  | attrError
  | valError
  | zeroDivError
deriving DecidableEq

deriving instance DecidableEq for Except

/-- Characters removed by Python `str.strip()` with no argument. -/
def pyStripChars (cs : List Char) : List Char :=
  ((cs.dropWhile Char.isWhitespace).reverse.dropWhile Char.isWhitespace).reverse

/-- Model of Python `s.strip()`: whitespace (spaces, tabs, newlines, carriage
returns) removed from both ends. -/
def pyStrip (s : String) : String :=
  String.mk (pyStripChars s.data)

/-- Model of Python `s.split(sep)` for a one-character separator: splitting
the empty string yields `[""]`, adjacent separators yield empty fields. -/
def pySplitChar (sep : Char) : List Char → List (List Char)
  | [] => [[]]
  | c :: rest =>
    if c = sep then [] :: pySplitChar sep rest
    else
      match pySplitChar sep rest with
      | [] => [[c]]
      | h :: t => (c :: h) :: t

/-- Model of Python `s.split(sep)`, on `String`. -/
def pySplit (sep : Char) (s : String) : List String :=
  (pySplitChar sep s.data).map String.mk

/-- Numeric value of a list of ASCII digits, most significant first. -/
def digitsVal (ds : List Char) : Nat :=
  ds.foldl (fun acc c => acc * 10 + (c.toNat - 48)) 0

/-- Consume a leading run of ASCII digits in which single underscores may
stand between two digits (PEP 515 digit grouping, as accepted by Python
`int()` and `float()`); returns the digits with underscores removed, and the
unconsumed remainder. A leading, trailing or doubled underscore is left in
the remainder, where the callers reject it. -/
def takeDigitGroup : List Char → List Char × List Char
  | [] => ([], [])
  | c :: '_' :: c2 :: rest2 =>
    if c.isDigit then
      if c2.isDigit then
        let p := takeDigitGroup (c2 :: rest2)
        (c :: p.1, p.2)
      else (c :: [], '_' :: c2 :: rest2)
    else ([], c :: '_' :: c2 :: rest2)
  | c :: rest =>
    if c.isDigit then
      let p := takeDigitGroup rest
      (c :: p.1, p.2)
    else ([], c :: rest)

/-- A complete underscore-grouped digit run and nothing else: its value. -/
def digitGroupVal (ds : List Char) : Option Int :=
  let p := takeDigitGroup ds
  if p.1 ≠ [] ∧ p.2 = [] then some (digitsVal p.1 : Int) else none

/-- Model of Python `int(s)` on a string: surrounding whitespace stripped, an
optional sign followed by a nonempty underscore-grouped run of ASCII digits;
anything else raises `ValueError`, modelled as `none`. (Non-ASCII unicode
digit forms are not modelled.) -/
def pyInt (s : String) : Option Int :=
  match pyStripChars s.data with
  | [] => none
  | '+' :: ds => digitGroupVal ds
  | '-' :: ds => (digitGroupVal ds).map Neg.neg
  | ds => digitGroupVal ds

/-- Ten to an integer power, as a rational. -/
def qpow10 (e : Int) : ℚ :=
  if 0 ≤ e then (10 : ℚ) ^ e.toNat else 1 / (10 : ℚ) ^ (-e).toNat

/-- The exponent part of a float literal (after the `e`/`E`): optional sign
followed by a nonempty underscore-grouped run of digits. -/
def parseExpPart (cs : List Char) : Option Int :=
  match cs with
  | [] => none
  | '+' :: ds => digitGroupVal ds
  | '-' :: ds => (digitGroupVal ds).map Neg.neg
  | ds => digitGroupVal ds

/-- A successfully parsed float literal, kept as its exact decimal
decomposition: the value is `±mantissa / 10^fracLen * 10^exp` (`FloatLit.val`).
The claims depend only on whether `float(...)` succeeded and on what string
failed, never on float arithmetic, so no rounding to binary64 is modelled. -/
structure FloatLit where
  neg : Bool
  mantissa : Nat
  fracLen : Nat
  exp : Int
deriving DecidableEq

/-- Exact rational value of a parsed float literal. -/
def FloatLit.val (f : FloatLit) : ℚ :=
  (if f.neg then -1 else 1) * (f.mantissa : ℚ) / (10 : ℚ) ^ f.fracLen * qpow10 f.exp

/-- A value Python `float()` can return: a finite decimal literal, a signed
infinity, or a NaN. Non-finite results have no `FloatLit` decomposition but
still count as parse successes. -/
inductive FloatVal where
  | finite (f : FloatLit)
  | inf (neg : Bool)
  | nan
deriving DecidableEq

/-- Unsigned decimal float literal: `digits`, `digits.digits`, `.digits`,
`digits.`, with underscore-grouped digit runs, each optionally followed by an
exponent part; gives `(mantissa, fracLen, exp)`. -/
def parseDecimal (cs : List Char) : Option (Nat × Nat × Int) :=
  let q := takeDigitGroup cs
  let ip := q.1
  match q.2 with
  | [] => if ip ≠ [] then some (digitsVal ip, 0, 0) else none
  | '.' :: rest2 =>
    let r := takeDigitGroup rest2
    let fp := r.1
    if ip = [] ∧ fp = [] then none
    else
      match r.2 with
      | [] => some (digitsVal (ip ++ fp), fp.length, 0)
      | 'e' :: es => (parseExpPart es).map fun e => (digitsVal (ip ++ fp), fp.length, e)
      | 'E' :: es => (parseExpPart es).map fun e => (digitsVal (ip ++ fp), fp.length, e)
      | _ => none
  | 'e' :: es =>
    if ip ≠ [] then (parseExpPart es).map fun e => (digitsVal ip, 0, e) else none
  | 'E' :: es =>
    if ip ≠ [] then (parseExpPart es).map fun e => (digitsVal ip, 0, e) else none
  | _ => none

/-- ASCII lower-casing, for the case-insensitive special float names. -/
def lowerAscii (cs : List Char) : List Char :=
  cs.map fun c => c.toLower

/-- The part of a `float()` argument after the optional sign: the special
names `inf`, `infinity` and `nan` (any case), or a decimal literal. -/
def parseFloatBody (neg : Bool) (cs : List Char) : Option FloatVal :=
  if lowerAscii cs = "inf".data ∨ lowerAscii cs = "infinity".data then
    some (FloatVal.inf neg)
  else if lowerAscii cs = "nan".data then some FloatVal.nan
  else (parseDecimal cs).map fun m => FloatVal.finite ⟨neg, m.1, m.2.1, m.2.2⟩

/-- Model of Python `float(s)`: whitespace stripped, optional sign, then a
special name (`inf`/`infinity`/`nan`, any case) or a decimal literal with
underscore grouping; anything else raises `ValueError`, modelled as `none`.
(Non-ASCII unicode digit forms are not modelled.) -/
def pyFloat (s : String) : Option FloatVal :=
  match pyStripChars s.data with
  | [] => none
  | '+' :: cs => parseFloatBody false cs
  | '-' :: cs => parseFloatBody true cs
  | cs => parseFloatBody false cs

/-- A geo coordinate field of a parsed record. After
`try: lat, lon = float(lat), float(lon) except ValueError: ...` the Python
variable holds either the parsed float (`num`) or still the raw unparsed
field string (`raw`). -/
inductive GeoVal where
  | num (v : FloatVal)
  | raw (s : String)
deriving DecidableEq

/-- The namedtuple `AppsInstalled("dev_type", "dev_id", "lat", "lon", "apps")`. -/
structure AppsInstalled where
  dev_type : String
  dev_id : String
  lat : GeoVal
  lon : GeoVal
  apps : List Int
deriving DecidableEq

/-- The body of `parse_apps_installed` after `line.decode().strip().split("\t")`,
as a function of the resulting field list `line_parts`. -/
def parse_fields (line_parts : List String) : Except PyError (Option AppsInstalled) :=
  if line_parts.length < 5 then Except.ok none
  else
    match line_parts with
    | [dev_type, dev_id, lat, lon, raw_apps] =>
      if dev_type = "" ∨ dev_id = "" then Except.ok none
      else
        match (pySplit ',' raw_apps).mapM (fun a => pyInt (pyStrip a)) with
        | none =>
          -- the fallback comprehension calls `a.isidigit()`, a misspelling of
          -- `isdigit`, so the first failing token raises AttributeError
          Except.error PyError.attrError
        | some apps =>
          match pyFloat lat, pyFloat lon with
          | some la, some lo =>
            Except.ok (some ⟨dev_type, dev_id, GeoVal.num la, GeoVal.num lo, apps⟩)
          | _, _ =>
            Except.ok (some ⟨dev_type, dev_id, GeoVal.raw lat, GeoVal.raw lon, apps⟩)
    | _ =>
      -- `dev_type, dev_id, lat, lon, raw_apps = line_parts` with more than
      -- 5 fields raises "too many values to unpack"
      Except.error PyError.valError

/-- `parse_apps_installed(line)`: `Except.ok none` models the bare `return`
(rejection), `Except.ok (some r)` a parsed record, `Except.error` an
exception escaping to the caller. -/
def parse_apps_installed (line : String) : Except PyError (Option AppsInstalled) :=
  parse_fields (pySplit '\t' (pyStrip line))

/-- The known device types, in the order `process_file` creates their shards
(`devices = ['idfa', 'gaid', 'adid', 'dvid']`). -/
def devices : List String := ["idfa", "gaid", "adid", "dvid"]

/-- Result of `process_line` when it returns normally: how many times it put
`1` on the error queue, and which record it enqueued on which device's queue
(at most one). -/
structure LineResult where
  errors : Nat
  enqueued : Option (String × AppsInstalled)
deriving DecidableEq

/-- `process_line(line, device_memc, errors)`: parse, count a rejection as one
error, route by `device_memc.get(dev_type)` (the dict built over `devices`),
count an unknown device type as one error, otherwise enqueue the record. -/
def process_line (line : String) : Except PyError LineResult :=
  match parse_apps_installed line with
  | Except.error e => Except.error e
  | Except.ok none => Except.ok ⟨1, none⟩
  | Except.ok (some apps_installed) =>
    if devices.contains apps_installed.dev_type then
      Except.ok ⟨0, some (apps_installed.dev_type, apps_installed)⟩
    else
      Except.ok ⟨1, none⟩

/-- The serialized store value: the state of the worker's protobuf `UserApps`
message at `SerializeToString()` time. The codec itself is an opaque external
contract, so the value is modelled by the message contents. -/
structure UserApps where
  lat : GeoVal
  lon : GeoVal
  apps : List Int
deriving DecidableEq

/-- An item a writer worker dequeues from its shard queue: a record, or the
`None` sentinel (`if not apps_installed:` — records are namedtuples, hence
truthy, so falsiness is exactly the sentinel). -/
inductive QItem where
  | item (ai : AppsInstalled)
  | sentinel
deriving DecidableEq

/-- Python-dict insertion on an association list: an existing key keeps its
position and gets the new value, a fresh key is appended (insertion order). -/
def dictInsert {α : Type} : List (String × α) → String → α → List (String × α)
  | [], key, val => [(key, val)]
  | (k, v) :: rest, key, val =>
    if k = key then (k, val) :: rest else (k, v) :: dictInsert rest key val

/-- Python-dict lookup on an association list. -/
def dictFind {α : Type} : List (String × α) → String → Option α
  | [], _ => none
  | (k, v) :: rest, key => if k = key then some v else dictFind rest key

/-- `MEMC_BATCH_SIZE = 100`. -/
def MEMC_BATCH_SIZE : Nat := 100

/-- An observable action of a writer worker: adding `(key, packed)` to its
batch dict, flushing the batch with `set_multi`, processing a record while
the batch is full without adding it (the `else` branch clears the batch and
moves on, so the record is dropped), or logging it in dry mode. -/
inductive WEvent where
  | batchAdd (key : String) (packed : UserApps)
  | flush (batch : List (String × UserApps))
  | drop (key : String) (packed : UserApps)
  | dryLog (key : String) (packed : UserApps)
deriving DecidableEq

/-- Trace of one writer worker: the events it performed, the queue items it
dequeued, and the batch dict contents after each dequeue step. -/
structure WorkerRun where
  events : List WEvent
  consumed : List QItem
  states : List (List (String × UserApps))
deriving DecidableEq

/-- The loop of `insert_apps_installed` as a function of the sequence of queue
items this worker dequeues. `ua_apps` is the repeated `apps` field of the one
`UserApps` message created before the loop: `ua.apps.extend(...)` appends to
it and nothing ever clears it, while `ua.lat`/`ua.lon` are overwritten each
iteration. `keys` is the batch dict. On a sentinel a non-empty batch is
flushed and the worker returns; on a record, when `len(keys) <
MEMC_BATCH_SIZE` the pair is added, otherwise the batch is flushed, cleared,
and the current record is not added. -/
def insert_apps_installed_go (dry_run : Bool) (ua_apps : List Int)
    (keys : List (String × UserApps)) : List QItem → WorkerRun
  | [] => ⟨[], [], []⟩
  | QItem.sentinel :: _ =>
    if keys.isEmpty then ⟨[], [QItem.sentinel], [keys]⟩
    else ⟨[WEvent.flush keys], [QItem.sentinel], [keys]⟩
  | QItem.item apps_installed :: rest =>
    let ua_apps' := ua_apps ++ apps_installed.apps
    let packed : UserApps := ⟨apps_installed.lat, apps_installed.lon, ua_apps'⟩
    let key := apps_installed.dev_type ++ ":" ++ apps_installed.dev_id
    if dry_run then
      let r := insert_apps_installed_go dry_run ua_apps' keys rest
      ⟨WEvent.dryLog key packed :: r.events, QItem.item apps_installed :: r.consumed,
        keys :: r.states⟩
    else if keys.length < MEMC_BATCH_SIZE then
      let keys' := dictInsert keys key packed
      let r := insert_apps_installed_go dry_run ua_apps' keys' rest
      ⟨WEvent.batchAdd key packed :: r.events, QItem.item apps_installed :: r.consumed,
        keys' :: r.states⟩
    else
      let r := insert_apps_installed_go dry_run ua_apps' [] rest
      ⟨WEvent.flush keys :: WEvent.drop key packed :: r.events,
        QItem.item apps_installed :: r.consumed, [] :: r.states⟩

/-- `insert_apps_installed(memc_addr, queue, errors, dry_run)`: fresh
`UserApps` message and fresh empty batch dict, then the dequeue loop. -/
def insert_apps_installed (dry_run : Bool) (items : List QItem) : WorkerRun :=
  insert_apps_installed_go dry_run [] [] items

/-- `inserts_by_device_count = int(int(options.workers) / len(devices))`:
true division then truncation toward zero, i.e. floor division for the
representable worker budgets modelled here. -/
def inserts_by_device_count (workers : Nat) : Nat :=
  workers / devices.length

/-- One shard as set up by `process_file`: its device type and the number of
inserter threads started for it. -/
structure ShardSetup where
  device : String
  pool_size : Nat
deriving DecidableEq

/-- The per-device shards `process_file` creates: one per device type, each
with `inserts_by_device_count` writer threads. -/
def process_file_shards (workers : Nat) : List ShardSetup :=
  devices.map fun d => ⟨d, inserts_by_device_count workers⟩

/-- `NORMAL_ERR_RATE = 0.01`, as an exact rational. -/
def NORMAL_ERR_RATE : ℚ := 1 / 100

/-- Outcome of the end of a `process_file` pass. -/
structure PassReport where
  err_rate : ℚ
  success : Bool
  renamed : Bool
deriving DecidableEq

/-- The tail of `process_file` after all workers joined: `err_rate =
float(errors) / total` (raising `ZeroDivisionError` when `total == 0`, in
which case `dot_rename` is never reached), success logged iff
`err_rate < NORMAL_ERR_RATE`, then the file is dot-renamed. -/
def process_file_outcome (total errors : Nat) : Except PyError PassReport :=
  if total = 0 then Except.error PyError.zeroDivError
  else
    Except.ok
      { err_rate := (errors : ℚ) / (total : ℚ)
        success := if (errors : ℚ) / (total : ℚ) < NORMAL_ERR_RATE then true else false
        renamed := true }

/-- Sizes of the `set_multi` flushes in a worker trace, in order. -/
def flushSizes (es : List WEvent) : List Nat :=
  es.filterMap fun e =>
    match e with
    | WEvent.flush b => some b.length
    | _ => none

/-- Keys of records a worker processed with a full batch and therefore never
added to any batch (silently lost). -/
def droppedKeys (es : List WEvent) : List String :=
  es.filterMap fun e =>
    match e with
    | WEvent.drop k _ => some k
    | _ => none

/-- A sample record with app list `[1]`, store key `"idfa:a"`. -/
def recA : AppsInstalled :=
  ⟨"idfa", "a", GeoVal.num (FloatVal.finite ⟨false, 1, 0, 0⟩), GeoVal.num (FloatVal.finite ⟨false, 1, 0, 0⟩), [1]⟩

/-- A sample record with app list `[2]`, store key `"idfa:b"`. -/
def recB : AppsInstalled :=
  ⟨"idfa", "b", GeoVal.num (FloatVal.finite ⟨false, 2, 0, 0⟩), GeoVal.num (FloatVal.finite ⟨false, 2, 0, 0⟩), [2]⟩

/-- 250 records with pairwise distinct store keys `"idfa:0" … "idfa:249"`,
followed by the worker's sentinel: the queue of the spec's batching scenario
for a single non-dry writer worker. -/
def c2_items : List QItem :=
  ((List.range 250).map fun i =>
    QItem.item ⟨"idfa", toString i, GeoVal.num (FloatVal.finite ⟨false, 0, 0, 0⟩),
      GeoVal.num (FloatVal.finite ⟨false, 0, 0, 0⟩), []⟩) ++ [QItem.sentinel]

/-- Inserting into the batch dict produces exactly the old keys plus possibly
the new one. -/
theorem mem_map_fst_dictInsert {α : Type} (s : List (String × α)) (k x : String) (v : α) :
    x ∈ (dictInsert s k v).map Prod.fst ↔ x ∈ s.map Prod.fst ∨ x = k := by
  induction s with
  | nil => simp [dictInsert]
  | cons p rest ih =>
    obtain ⟨pk, pv⟩ := p
    by_cases h : pk = k
    · subst h
      simp [dictInsert]
      tauto
    · simp [dictInsert, h, ih]
      tauto

/-- Dict insertion keeps the keys distinct. -/
theorem nodup_dictInsert {α : Type} (s : List (String × α)) (k : String) (v : α)
    (h : (s.map Prod.fst).Nodup) : ((dictInsert s k v).map Prod.fst).Nodup := by
  induction s with
  | nil => simp [dictInsert]
  | cons p rest ih =>
    obtain ⟨pk, pv⟩ := p
    simp only [List.map_cons, List.nodup_cons] at h
    by_cases hk : pk = k
    · subst hk
      simpa [dictInsert] using h
    · simp only [dictInsert, hk, if_false, List.map_cons, List.nodup_cons]
      refine ⟨?_, ih h.2⟩
      rw [mem_map_fst_dictInsert]
      rintro (hmem | hek)
      · exact h.1 hmem
      · exact hk hek

/-- Dict insertion grows the dict by at most one entry. -/
theorem length_dictInsert_le {α : Type} (s : List (String × α)) (k : String) (v : α) :
    (dictInsert s k v).length ≤ s.length + 1 := by
  induction s with
  | nil => simp [dictInsert]
  | cons p rest ih =>
    obtain ⟨pk, pv⟩ := p
    by_cases hk : pk = k <;> simp [dictInsert, hk] <;> try omega

/-- Dict insertion on an already-present key does not grow the dict: the
batch-size threshold counts distinct keys, not processed records. -/
theorem length_dictInsert_of_mem {α : Type} (s : List (String × α)) (k : String) (v : α)
    (h : k ∈ s.map Prod.fst) : (dictInsert s k v).length = s.length := by
  induction s with
  | nil => simp at h
  | cons p rest ih =>
    obtain ⟨pk, pv⟩ := p
    by_cases hk : pk = k
    · simp [dictInsert, hk]
    · simp only [List.map_cons, List.mem_cons] at h
      rcases h with h | h
    
      · exact absurd h.symm hk
      · simp [dictInsert, hk, ih h]

/-- The inserted value is the one subsequently found under its key: a second
record with the same store key overwrites the first in the batch. -/
theorem dictFind_dictInsert {α : Type} (s : List (String × α)) (k : String) (v : α) :
    dictFind (dictInsert s k v) k = some v := by
  induction s with
  | nil => simp [dictInsert, dictFind]
  | cons p rest ih =>
    obtain ⟨pk, pv⟩ := p
    by_cases hk : pk = k <;> simp [dictInsert, dictFind, hk, ih]

/-- Every intermediate batch dict of a worker run started from a good batch
has distinct keys and at most `MEMC_BATCH_SIZE` entries. -/
theorem insert_states_good (dry_run : Bool) (items : List QItem) :
    ∀ (ua_apps : List Int) (keys : List (String × UserApps)),
      (keys.map Prod.fst).Nodup → keys.length ≤ MEMC_BATCH_SIZE →
      ∀ s ∈ (insert_apps_installed_go dry_run ua_apps keys items).states,
        (s.map Prod.fst).Nodup ∧ s.length ≤ MEMC_BATCH_SIZE := by
  induction items with
  | nil =>
    intro ua_apps keys _ _ s hs
    simp [insert_apps_installed_go] at hs
  | cons x rest ih =>
    intro ua_apps keys hnd hlen s hs
    cases x with
    | sentinel =>
      by_cases hk : keys.isEmpty <;>
        · simp only [insert_apps_installed_go, hk, if_pos, if_neg, if_true, if_false,
            Bool.false_eq_true, List.mem_singleton] at hs
          subst hs
          exact ⟨hnd, hlen⟩
    | item ai =>
      cases dry_run with
      | true =>
        simp only [insert_apps_installed_go, if_true, List.mem_cons] at hs
        rcases hs with hs | hs
        · subst hs; exact ⟨hnd, hlen⟩
        · exact ih _ keys hnd hlen s hs
      | false =>
        by_cases hlt : keys.length < MEMC_BATCH_SIZE
        · simp only [insert_apps_installed_go, hlt, if_true, if_false, Bool.false_eq_true,
            List.mem_cons] at hs
          rcases hs with hs | hs
          · subst hs
            constructor
            · exact nodup_dictInsert keys _ _ hnd
            · calc (dictInsert keys _ _).length ≤ keys.length + 1 := length_dictInsert_le _ _ _
                _ ≤ MEMC_BATCH_SIZE := hlt
          · refine ih _ _ (nodup_dictInsert keys _ _ hnd) ?_ s hs
            calc (dictInsert keys _ _).length ≤ keys.length + 1 := length_dictInsert_le _ _ _
              _ ≤ MEMC_BATCH_SIZE := hlt
        · simp only [insert_apps_installed_go, hlt, if_false, Bool.false_eq_true,
            List.mem_cons] at hs
          rcases hs with hs | hs
          · subst hs; simp
          · exact ih _ [] (by simp) (by simp) s hs

set_option maxRecDepth 8000 in
/-- C1: the claim says each batched value serializes only its own record's
lat, lon and app_ids. The code creates one `UserApps` message per worker and
only ever `extend`s its repeated `apps` field, so the value batched for the
second record contains the first record's app id as well: after dequeuing
`recA` (apps `[1]`) and `recB` (apps `[2]`), the value under `"idfa:b"`
carries apps `[1, 2]`, not `[2]`. -/
theorem c1_value_accumulates_apps :
    (insert_apps_installed false [QItem.item recA, QItem.item recB, QItem.sentinel]).events =
      [WEvent.batchAdd "idfa:a" ⟨recA.lat, recA.lon, [1]⟩,
       WEvent.batchAdd "idfa:b" ⟨recB.lat, recB.lon, [1, 2]⟩,
       WEvent.flush [("idfa:a", ⟨recA.lat, recA.lon, [1]⟩),
                     ("idfa:b", ⟨recB.lat, recB.lon, [1, 2]⟩)]] ∧
    ([1, 2] : List Int) ≠ recB.apps := by
  constructor
  · decide
  · decide

set_option maxRecDepth 100000 in
set_option maxHeartbeats 4000000 in
/-- C2: the claim says 250 distinct-key records give flushes of 100, 100 and
50 with no record dropped. The code's `else` branch flushes and clears the
full batch but never adds the record that triggered it, so the worker flushes
100, 100 and 48 and silently drops the 101st and 202nd records. -/
theorem c2_flush_sizes_and_drops :
    flushSizes (insert_apps_installed false c2_items).events = [100, 100, 48] ∧
    droppedKeys (insert_apps_installed false c2_items).events = ["idfa:100", "idfa:201"] := by
  constructor
  · rfl
  · rfl

/-- C3: the claim says a non-numeric app token is dropped and parse returns a
record with the numeric tokens, never raising. The fallback comprehension
calls `a.isidigit()` — a misspelling of `isdigit` — so the line
`idfa\tdev1\t1.0\t1.0\t1,a` makes `parse_apps_installed` raise
`AttributeError` to its caller instead of returning a record with apps `[1]`. -/
theorem c3_parse_raises_on_nonnumeric_token :
    parse_apps_installed "idfa\tdev1\t1.0\t1.0\t1,a" = Except.error PyError.attrError := by
  decide

/-- C4 counterexample: the claim says a pass with `total == 0` skips the rate
comparison, continues, and still renames the file. In the code
`float(errors) / total` raises `ZeroDivisionError`, so no `PassReport` (and
in particular no rename) is ever produced. -/
theorem c4_zero_total_counterexample :
    process_file_outcome 0 0 = Except.error PyError.zeroDivError ∧
    ¬ ∃ r : PassReport, process_file_outcome 0 0 = Except.ok r ∧ r.renamed = true := by
  constructor
  · rfl
  · rintro ⟨r, hr, -⟩
    simp [process_file_outcome] at hr

/-- C4 (amended): when a file pass processes zero non-empty lines, the
error-rate division faults with `ZeroDivisionError`; the rate comparison is
never reached and the file is not renamed. -/
theorem c4_zero_total_faults (total errors : Nat) (h : total = 0) :
    process_file_outcome total errors = Except.error PyError.zeroDivError := by
  subst h
  rfl

/-- C4 witness: the amended theorem applied at `total = 0`, `errors = 0`. -/
theorem c4_zero_total_faults_witness :
    process_file_outcome 0 0 = Except.error PyError.zeroDivError :=
  c4_zero_total_faults 0 0 rfl

/-- Dict insertion on a fresh key appends one entry. -/
theorem length_dictInsert_of_not_mem {α : Type} (s : List (String × α)) (k : String) (v : α)
    (h : k ∉ s.map Prod.fst) : (dictInsert s k v).length = s.length + 1 := by
  induction s with
  | nil => simp [dictInsert]
  | cons p rest ih =>
    obtain ⟨pk, pv⟩ := p
    simp only [List.map_cons, List.mem_cons, not_or] at h
    have hk : pk ≠ k := fun he => h.1 he.symm
    simp [dictInsert, hk, ih h.2]

/-- C5 counterexample: the claim says every positive worker budget gives each
shard a pool of at least 1. With budget 3 the code computes
`int(3 / 4) = 0`, so all four shards are started with zero writer workers. -/
theorem c5_small_budget_counterexample :
    0 < 3 ∧
    process_file_shards 3 = [⟨"idfa", 0⟩, ⟨"gaid", 0⟩, ⟨"adid", 0⟩, ⟨"dvid", 0⟩] ∧
    inserts_by_device_count 3 = 0 := by
  refine ⟨by decide, rfl, rfl⟩

/-- C5 (amended): each of the four device-type shards is started with a pool
of exactly `⌊budget / 4⌋` writer workers, which is at least 1 iff the total
budget is at least 4; budgets 1–3 leave every shard with zero workers. -/
theorem c5_pool_size (workers : Nat) :
    process_file_shards workers =
      [⟨"idfa", inserts_by_device_count workers⟩, ⟨"gaid", inserts_by_device_count workers⟩,
       ⟨"adid", inserts_by_device_count workers⟩, ⟨"dvid", inserts_by_device_count workers⟩] ∧
    inserts_by_device_count workers = workers / 4 ∧
    (1 ≤ inserts_by_device_count workers ↔ 4 ≤ workers) := by
  refine ⟨rfl, rfl, ?_⟩
  show 1 ≤ workers / 4 ↔ 4 ≤ workers
  exact Nat.one_le_div_iff (by norm_num)

/-- C6 counterexample: the claim says every ≥5-field line with non-empty
identity and an unparseable coordinate yields a record whose lat/lon are left
at a defined default. Three concrete lines in its scope refute it. The record
parsed from `idfa\tdev1\tabc\tdef\t1` carries `lat = "abc"`, `lon = "def"`,
and a second line with a different bad coordinate yields a different `lat` —
the value is the raw unparsed field, not any fixed default. Moreover two
further in-scope lines yield no record at all: a 6-field line with a bad lat
raises `ValueError` at tuple unpacking, and a bad-coordinate line whose apps
field holds a non-numeric token raises `AttributeError` via the `isidigit`
typo before the coordinates are even reached. -/
theorem c6_raw_coords_counterexample :
    parse_apps_installed "idfa\tdev1\tabc\tdef\t1" =
      Except.ok (some ⟨"idfa", "dev1", GeoVal.raw "abc", GeoVal.raw "def", [1]⟩) ∧
    parse_apps_installed "idfa\tdev1\txyz\tdef\t1" =
      Except.ok (some ⟨"idfa", "dev1", GeoVal.raw "xyz", GeoVal.raw "def", [1]⟩) ∧
    GeoVal.raw "abc" ≠ GeoVal.raw "xyz" ∧
    parse_apps_installed "idfa\tdev\tbad\t1.0\t1\tX" = Except.error PyError.valError ∧
    parse_apps_installed "idfa\tdev\tbad\tbad\t1,x" = Except.error PyError.attrError := by
  refine ⟨by decide, by decide, by decide, by decide, by decide⟩

/-- C6 (amended): for every raw line whose whitespace-stripped form splits on
tab into exactly 5 fields, with non-empty `device_type` and `device_id`,
whose app tokens all parse as integers, and whose lat or lon field fails to
parse as a float, parse returns a Record (not Rejected) in which `lat` and
`lon` both retain the raw unparsed field strings — leftover data, not a
defined default (the tuple assignment `lat, lon = float(lat), float(lon)` is
skipped wholesale). Lines of the original ≥5-field scope outside this form
yield no Record at all: more than 5 stripped fields raise `ValueError`, and a
non-parsing app token raises `AttributeError`. -/
theorem c6_raw_coords_kept (line dt di la lo ra : String) (apps : List Int)
    (hsplit : pySplit '\t' (pyStrip line) = [dt, di, la, lo, ra])
    (hdt : dt ≠ "") (hdi : di ≠ "")
    (happs : (pySplit ',' ra).mapM (fun a => pyInt (pyStrip a)) = some apps)
    (hgeo : pyFloat la = none ∨ pyFloat lo = none) :
    parse_apps_installed line =
      Except.ok (some ⟨dt, di, GeoVal.raw la, GeoVal.raw lo, apps⟩) := by
  unfold parse_apps_installed
  rw [hsplit]
  have happs' : List.mapM.loop (fun a => pyInt (pyStrip a)) (pySplit ',' ra) [] = some apps :=
    happs
  rcases hgeo with h | h
  · simp [parse_fields, hdt, hdi, happs', h]
  · cases hla : pyFloat la with
    | none => simp [parse_fields, hdt, hdi, happs', hla]
    | some f => simp [parse_fields, hdt, hdi, happs', hla, h]

/-- C6 witness: the amended theorem at the line `gaid\tdev7\tbad\t9.5\t3,4`,
where `lat` fails to parse and `lon` would parse. -/
theorem c6_raw_coords_kept_witness :
    parse_apps_installed "gaid\tdev7\tbad\t9.5\t3,4" =
      Except.ok (some ⟨"gaid", "dev7", GeoVal.raw "bad", GeoVal.raw "9.5", [3, 4]⟩) :=
  c6_raw_coords_kept "gaid\tdev7\tbad\t9.5\t3,4" "gaid" "dev7" "bad" "9.5" "3,4" [3, 4]
    (by decide) (by decide) (by decide) (by decide) (Or.inl (by decide))

/-- C7 counterexample: the claim covers every raw line that splits into fewer
than 5 fields or has an empty identity field. The raw line
`\tidfa\tdev9\t1.0\t1.0\t7` splits into 6 fields with empty `device_type`,
yet `line.strip()` removes the leading tab first, so parse returns a complete
record, the caller counts zero errors, and the record is enqueued for a store
write — not Rejected. -/
theorem c7_leading_tab_counterexample :
    pySplit '\t' "\tidfa\tdev9\t1.0\t1.0\t7" = ["", "idfa", "dev9", "1.0", "1.0", "7"] ∧
    parse_apps_installed "\tidfa\tdev9\t1.0\t1.0\t7" =
      Except.ok (some ⟨"idfa", "dev9", GeoVal.num (FloatVal.finite ⟨false, 10, 1, 0⟩),
        GeoVal.num (FloatVal.finite ⟨false, 10, 1, 0⟩), [7]⟩) ∧
    process_line "\tidfa\tdev9\t1.0\t1.0\t7" =
      Except.ok ⟨0, some ("idfa", ⟨"idfa", "dev9", GeoVal.num (FloatVal.finite ⟨false, 10, 1, 0⟩),
        GeoVal.num (FloatVal.finite ⟨false, 10, 1, 0⟩), [7]⟩)⟩ := by
  refine ⟨by decide, by decide, by decide⟩

/-- C7 (amended): for every raw line whose whitespace-stripped form splits on
tab into fewer than 5 fields, or into exactly 5 fields with empty
`device_type` or `device_id`, parse signals Rejected (returns `None`,
producing no record) and the caller counts exactly one error and enqueues
nothing, so no store write is issued for the line. -/
theorem c7_rejected_lines (line : String) (parts : List String)
    (hsplit : pySplit '\t' (pyStrip line) = parts)
    (hbad : parts.length < 5 ∨
      ∃ dt di la lo ra, parts = [dt, di, la, lo, ra] ∧ (dt = "" ∨ di = "")) :
    parse_apps_installed line = Except.ok none ∧
    process_line line = Except.ok ⟨1, none⟩ := by
  have hp : parse_apps_installed line = Except.ok none := by
    unfold parse_apps_installed
    rw [hsplit]
    rcases hbad with hlen | ⟨dt, di, la, lo, ra, hparts, hdev⟩
    · unfold parse_fields
      rw [if_pos hlen]
    · subst hparts
      rcases hdev with h | h <;> subst h <;> simp [parse_fields]
  refine ⟨hp, ?_⟩
  unfold process_line
  rw [hp]

/-- C7 witness: the amended theorem at the 2-field line `idfa\tdev1`. -/
theorem c7_rejected_lines_witness :
    parse_apps_installed "idfa\tdev1" = Except.ok none ∧
    process_line "idfa\tdev1" = Except.ok ⟨1, none⟩ :=
  c7_rejected_lines "idfa\tdev1" ["idfa", "dev1"] (by decide) (Or.inl (by decide))

/-- C8: at the end of a pass with at least one line, the file is renamed and
logged successful exactly when `errors / total` is strictly below the
`NORMAL_ERR_RATE = 0.01` threshold; in particular 0 errors out of 100 lines
is a success and 2 errors out of 100 lines is a failure. -/
theorem c8_error_rate_gate (total errors : Nat) (h : 0 < total) :
    process_file_outcome total errors =
      Except.ok ⟨(errors : ℚ) / (total : ℚ),
        if (errors : ℚ) / (total : ℚ) < NORMAL_ERR_RATE then true else false, true⟩ ∧
    process_file_outcome 100 0 = Except.ok ⟨0, true, true⟩ ∧
    process_file_outcome 100 2 = Except.ok ⟨1 / 50, false, true⟩ := by
  refine ⟨?_, ?_, ?_⟩
  · unfold process_file_outcome
    rw [if_neg (by omega)]
  · unfold process_file_outcome NORMAL_ERR_RATE
    norm_num
  · unfold process_file_outcome NORMAL_ERR_RATE
    norm_num

/-- C8 witness: the gate theorem applied at `total = 100`, `errors = 2`. -/
theorem c8_error_rate_gate_witness :
    process_file_outcome 100 2 =
      Except.ok ⟨((2 : ℕ) : ℚ) / ((100 : ℕ) : ℚ),
        if ((2 : ℕ) : ℚ) / ((100 : ℕ) : ℚ) < NORMAL_ERR_RATE then true else false, true⟩ :=
  (c8_error_rate_gate 100 2 (by decide)).1

/-- C10: after every dequeue step of a writer worker the batch dict has
pairwise-distinct keys and at most `MEMC_BATCH_SIZE = 100` entries; adding an
entry under a key stores its value as the one found under that key
(overwriting any earlier record with the same store key), and re-adding an
existing key does not grow the batch, so the size threshold counts distinct
keys rather than processed records. -/
theorem c10_batch_invariant (dry_run : Bool) (items : List QItem)
    (s : List (String × UserApps)) (k : String) (v : UserApps)
    (hs : s ∈ (insert_apps_installed dry_run items).states) :
    (s.map Prod.fst).Nodup ∧ s.length ≤ MEMC_BATCH_SIZE ∧
    dictFind (dictInsert s k v) k = some v ∧
    (dictInsert s k v).length =
      (if k ∈ s.map Prod.fst then s.length else s.length + 1) := by
  have hgood := insert_states_good dry_run items [] [] (by simp) (by simp) s hs
  refine ⟨hgood.1, hgood.2, dictFind_dictInsert s k v, ?_⟩
  by_cases hk : k ∈ s.map Prod.fst
  · rw [if_pos hk, length_dictInsert_of_mem s k v hk]
  · rw [if_neg hk, length_dictInsert_of_not_mem s k v hk]

/-- C10 witness: the invariant at the batch state reached by a worker that
dequeues only a sentinel, probed with the key `"idfa:a"`. -/
theorem c10_batch_invariant_witness :
    (([] : List (String × UserApps)).map Prod.fst).Nodup ∧
    ([] : List (String × UserApps)).length ≤ MEMC_BATCH_SIZE ∧
    dictFind (dictInsert ([] : List (String × UserApps)) "idfa:a"
      ⟨recA.lat, recA.lon, [1]⟩) "idfa:a" = some ⟨recA.lat, recA.lon, [1]⟩ ∧
    (dictInsert ([] : List (String × UserApps)) "idfa:a" ⟨recA.lat, recA.lon, [1]⟩).length =
      (if "idfa:a" ∈ (([] : List (String × UserApps)).map Prod.fst)
       then ([] : List (String × UserApps)).length
       else ([] : List (String × UserApps)).length + 1) :=
  c10_batch_invariant false [QItem.sentinel] [] "idfa:a" ⟨recA.lat, recA.lon, [1]⟩ (by decide)
